import Mathlib

/-!
Shallow embedding of `src/examples/c_segfault.c`, a 38-line C program that
demonstrates a NULL-pointer dereference, together with theorems settling the
specification claims about it.

Modelling conventions:
* A C pointer `struct User *` is modelled as `Option User`; `NULL` is `none`.
* A `struct User` value is the inductive `User` below (the `manager` field is
  an `Option User`, mirroring the possibly-NULL pointer field).
* Dereferencing a NULL pointer is the error branch of an `Except Fault`
  computation: the fault aborts the computation before any further output.
* `printf` output is collected as a list of lines (without trailing newlines).
* Process termination is `Outcome`: either a normal exit with a status code or
  abnormal termination by a fault.
-/

/-- The `struct User` record of the C source: an integer identifier, a display
name, and a possibly-absent (NULL) pointer to the manager record. -/
inductive User : Type where
  | mk : Int → String → Option User → User
deriving Repr

/-- The `id` field of a `User` record. -/
def User.id : User → Int
  | .mk i _ _ => i

/-- The `name` field of a `User` record. -/
def User.name : User → String
  | .mk _ n _ => n

/-- The `manager` field of a `User` record (`none` models a NULL pointer). -/
def User.manager : User → Option User
  | .mk _ _ m => m

/-- The one way a computation of this program aborts abnormally: dereferencing
a NULL pointer (a segmentation fault on the host platform). -/
inductive Fault : Type where
  | nullDeref
deriving DecidableEq, Repr

/-- How a run of the program ends: a normal exit with a status code, or
abnormal termination by a fault. -/
inductive Outcome : Type where
  | exited : Int → Outcome
  | faulted : Fault → Outcome
deriving DecidableEq, Repr

/-- `find_user` from the C source:
```
struct User* find_user(int id) {
    if (id != 1) { return NULL; }
    struct User *user = malloc(sizeof(struct User));
    user->id = 1;
    user->name = "Alice";
    user->manager = NULL;
    return user;
}
```
The heap allocation is modelled by returning the constructed record directly;
the returned pointer is `Option User`. -/
def find_user (id : Int) : Option User :=
  if id ≠ 1 then
    none
  else
    some (User.mk 1 "Alice" none)

/-- `print_manager_name` from the C source:
```
void print_manager_name(struct User *user) {
    printf("Manager: %s\n", user->manager->name);
}
```
The argument is a pointer (`Option User`); both dereferences (`user->manager`
and `manager->name`) fault when the pointer being dereferenced is NULL. The
fault happens while evaluating `printf`'s argument, so on the fault branch no
output line is produced; on success the single report line is returned. -/
def print_manager_name (user : Option User) : Except Fault (List String) :=
  match user with
  | none => Except.error Fault.nullDeref
  | some u =>
    match u.manager with
    | none => Except.error Fault.nullDeref
    | some m => Except.ok ["Manager: " ++ m.name]

/-- The observable result of one run: the lines written to standard output, the
termination outcome, and whether `print_manager_name` was ever invoked (the
last component instruments the call site for the reachability claim). -/
structure RunResult : Type where
  mk ::
  output : List String
  outcome : Outcome
  invoked_report : Bool
deriving DecidableEq, Repr

/-- The body of `main` from the C source, generalized over the identifier that
is looked up (the source hard-codes `1`; the spec's scenarios quantify over the
identifier):
```
struct User *user = find_user(id);
if (user) {
    printf("Found user: %s\n", user->name);
    print_manager_name(user);
}
return 0;
```
When `print_manager_name` faults, the process terminates abnormally with the
output produced so far; otherwise the run exits with status 0. -/
def run_program (id : Int) : RunResult :=
  match find_user id with
  | none => RunResult.mk [] (Outcome.exited 0) false
  | some user =>
    let line1 := "Found user: " ++ user.name
    match print_manager_name (some user) with
    | Except.error f => RunResult.mk [line1] (Outcome.faulted f) true
    | Except.ok lines => RunResult.mk (line1 :: lines) (Outcome.exited 0) true

/-- `main` of the C source: `int main()` takes no parameters, so any process
arguments and environment are unread; it runs the lookup on the fixed
identifier `1`. `args` and `env` model what the operating system hands a
process; the program ignores them, exactly as `int main()` does. -/
def main_process (_args : List String) (_env : List (String × String)) :
    RunResult :=
  run_program 1

/-- The single concrete run the C program performs. -/
def c_main : RunResult := main_process [] []

/-- Claim C1: for input identifier 1, `find_user` returns a `User` record whose
name is "Alice" and whose manager relation is absent (NULL). -/
theorem find_user_one_alice_no_manager :
    ∃ u : User, find_user 1 = some u ∧ u.name = "Alice" ∧ u.manager = none :=
  ⟨User.mk 1 "Alice" none, rfl, rfl, rfl⟩

/-- Claim C2: invoking `print_manager_name` on any `User` record whose manager
relation is absent reaches the NULL-dereference error branch: the computation
aborts with the fault instead of returning output. -/
theorem print_manager_name_absent_faults (u : User) (h : u.manager = none) :
    print_manager_name (some u) = Except.error Fault.nullDeref := by
  simp [print_manager_name, h]

/-- Witness for C2: the record `find_user` builds has an absent manager, and
`print_manager_name` faults on it. -/
theorem print_manager_name_absent_faults_witness :
    print_manager_name (some (User.mk 1 "Alice" none)) =
      Except.error Fault.nullDeref :=
  print_manager_name_absent_faults (User.mk 1 "Alice" none) rfl

/-- Claim C3: end-to-end, the program's run on identifier 1 writes the line
"Found user: Alice" to standard output and then terminates abnormally with a
fault, not a normal exit. -/
theorem main_found_alice_then_fault :
    "Found user: Alice" ∈ c_main.output ∧
      ∃ f : Fault, c_main.outcome = Outcome.faulted f := by
  constructor
  · show "Found user: Alice" ∈ ["Found user: " ++ "Alice"]
    simp
  · exact ⟨Fault.nullDeref, rfl⟩

/-- Claim C4: `find_user` returns a record exactly when the identifier is 1,
and for every other identifier it returns the explicit not-found result `none`
as an ordinary value (no error is raised). -/
theorem find_user_found_iff :
    ∀ id : Int, ((find_user id).isSome = true ↔ id = 1) ∧
      (find_user id = none ↔ id ≠ 1) := by
  intro id
  by_cases h : id = 1
  · subst h
    simp [find_user]
  · simp [find_user, h]

/-- Claim C5: on the not-found path (any identifier other than 1), the program
writes nothing to standard output — in particular no "Found user" line — and
exits normally with status 0. -/
theorem run_not_found_silent_exit_zero (id : Int) (h : id ≠ 1) :
    (run_program id).output = [] ∧
      (run_program id).outcome = Outcome.exited 0 ∧
      "Found user: Alice" ∉ (run_program id).output := by
  have hfu : find_user id = none := by simp [find_user, h]
  simp [run_program, hfu]

/-- Witness for C5: identifier 2 is not 1, and the run on it is silent and
exits with status 0. -/
theorem run_not_found_silent_exit_zero_witness :
    (run_program 2).output = [] ∧
      (run_program 2).outcome = Outcome.exited 0 ∧
      "Found user: Alice" ∉ (run_program 2).output :=
  run_not_found_silent_exit_zero 2 (by decide)

/-- Counterexample to claim C6 as stated: on the crash path the program does
not write two lines before the fault — it writes exactly one. The dereference
`user->manager->name` faults while evaluating `printf`'s argument, so the
"Manager:" report line is never written. -/
theorem crash_path_not_two_lines : c_main.output.length ≠ 2 := by
  decide

/-- Claim C6 (amended): on the crash path, the program writes exactly one line
to standard output before the fault — the "Found user: Alice" line; the fatal
dereference faults before its report line can be written, and the run ends in
the fault. -/
theorem crash_path_one_line_then_fault :
    c_main.output = ["Found user: Alice"] ∧
      c_main.outcome = Outcome.faulted Fault.nullDeref := by
  constructor
  · show ["Found user: " ++ "Alice"] = ["Found user: Alice"]
    simp
  · rfl

/-- Claim C7: when the given record's manager relation is present,
`print_manager_name` returns the "Manager: <name>" report line for that
manager and does not fault. -/
theorem print_manager_name_present_ok (u m : User) (h : u.manager = some m) :
    print_manager_name (some u) = Except.ok ["Manager: " ++ m.name] := by
  simp [print_manager_name, h]

/-- Witness for C7: a record whose manager is Alice; the operation returns the
"Manager: Alice" line. -/
theorem print_manager_name_present_ok_witness :
    print_manager_name (some (User.mk 2 "Bob" (some (User.mk 1 "Alice" none))))
      = Except.ok ["Manager: " ++ "Alice"] :=
  print_manager_name_present_ok (User.mk 2 "Bob" (some (User.mk 1 "Alice" none)))
    (User.mk 1 "Alice" none) rfl

/-- Claim C8: the entry point invokes `print_manager_name` exactly on the found
path — it is reached if and only if the lookup returned a record, so it is
never reached when the lookup returns not-found. -/
theorem report_invoked_iff_found :
    ∀ id : Int, (run_program id).invoked_report = true ↔
      (find_user id).isSome = true := by
  intro id
  cases hfu : find_user id with
  | none => simp [run_program, hfu]
  | some user =>
    cases hp : print_manager_name (some user) with
    | error f => simp [run_program, hfu, hp]
    | ok lines => simp [run_program, hfu, hp]

/-- Claim C9: the program takes no arguments and reads no environment, so its
behavior is deterministic — any two runs, whatever arguments and environment
the operating system hands them, produce the same standard output and the same
termination outcome. -/
theorem main_deterministic :
    ∀ (a₁ a₂ : List String) (e₁ e₂ : List (String × String)),
      (main_process a₁ e₁).output = (main_process a₂ e₂).output ∧
        (main_process a₁ e₁).outcome = (main_process a₂ e₂).outcome := by
  intro a₁ a₂ e₁ e₂
  exact ⟨rfl, rfl⟩

/-- Claim C10: every record `find_user` returns stores identifier 1, which is
also the identifier that was looked up (records are only returned for
identifier 1). -/
theorem find_user_result_id (id : Int) (u : User) (h : find_user id = some u) :
    u.id = 1 ∧ u.id = id := by
  by_cases hid : id = 1
  · subst hid
    simp [find_user] at h
    subst h
    exact ⟨rfl, rfl⟩
  · simp [find_user, hid] at h

/-- Witness for C10: the record returned for identifier 1 stores id 1. -/
theorem find_user_result_id_witness :
    (User.mk 1 "Alice" none).id = 1 ∧ (User.mk 1 "Alice" none).id = 1 :=
  find_user_result_id 1 (User.mk 1 "Alice" none) rfl
